import Mathlib

/-!
# WeaverFi core engine: a shallow embedding and verification

This development embeds the query/valuation core of the `weaverfi` library
(`src/functions.ts` and the project handlers) into Lean and proves or refutes
the specified behavioural properties.

Modelling conventions:
* JavaScript numbers are modelled by `JSNum`: exact rationals extended with
  `nan`, `inf` and `ninf`, with IEEE-754 special-value propagation for the
  arithmetic the code performs (rounding of finite values is not modelled;
  signed zero and finite overflow are not modelled, as no claim depends on
  them).
* Decoded JavaScript values (the result of an `ethers` contract call) are
  modelled by `JSVal`, a payload together with its JS truthiness, since the
  retry loop in `query` tests its result variable with `!result`.
* Network nondeterminism is an oracle: the outcome of the t-th contract call
  attempt is `outcome t : Option JSVal` (`none` = the call threw).
* The `while` loop of `query` is run on explicit fuel; theorems are stated
  for any sufficient fuel, and fuel exhaustion is observable in the
  `looping` flag of the result.
-/

namespace Weaverfi

/-- JavaScript floating-point numbers: exact rationals plus the IEEE special
values that division by zero produces. -/
inductive JSNum where
  | num : ℚ → JSNum
  | nan : JSNum
  | inf : JSNum
  | ninf : JSNum
deriving DecidableEq

namespace JSNum

/-- JS `+` on numbers (special values per IEEE-754). -/
def add : JSNum → JSNum → JSNum
  | nan, _ => nan
  | _, nan => nan
  | num a, num b => num (a + b)
  | inf, ninf => nan
  | ninf, inf => nan
  | inf, _ => inf
  | _, inf => inf
  | ninf, _ => ninf
  | _, ninf => ninf

/-- JS `*` on numbers (special values per IEEE-754). -/
def mul : JSNum → JSNum → JSNum
  | nan, _ => nan
  | _, nan => nan
  | num a, num b => num (a * b)
  | inf, num b => if b = 0 then nan else if 0 < b then inf else ninf
  | num a, inf => if a = 0 then nan else if 0 < a then inf else ninf
  | ninf, num b => if b = 0 then nan else if 0 < b then ninf else inf
  | num a, ninf => if a = 0 then nan else if 0 < a then ninf else inf
  | inf, inf => inf
  | inf, ninf => ninf
  | ninf, inf => ninf
  | ninf, ninf => inf

/-- JS `/` on numbers: division by zero yields `nan` (0/0) or a signed
infinity, exactly as in IEEE-754. -/
def div : JSNum → JSNum → JSNum
  | nan, _ => nan
  | _, nan => nan
  | num a, num b =>
      if b = 0 then (if a = 0 then nan else if 0 < a then inf else ninf)
      else num (a / b)
  | num _, inf => num 0
  | num _, ninf => num 0
  | inf, num b => if 0 ≤ b then inf else ninf
  | ninf, num b => if 0 ≤ b then ninf else inf
  | inf, _ => nan
  | ninf, _ => nan

instance : Add JSNum := ⟨add⟩
instance : Mul JSNum := ⟨mul⟩
instance : Div JSNum := ⟨div⟩

/-- `10 ** d`, the decimals normalizer (always a positive finite number). -/
def pow10 (d : Nat) : JSNum := num ((10 : ℚ) ^ d)

theorem add_num_num (a b : ℚ) : num a + num b = num (a + b) := rfl

theorem mul_num_num (a b : ℚ) : num a * num b = num (a * b) := rfl

theorem div_num_num (a b : ℚ) (hb : b ≠ 0) : num a / num b = num (a / b) := by
  show div (num a) (num b) = num (a / b)
  simp [div, hb]

theorem div_num_zero_pos (a : ℚ) (ha : 0 < a) : num a / num 0 = inf := by
  show div (num a) (num 0) = inf
  simp [div, ha, ha.ne']

theorem num_div_pow10 (a : ℚ) (d : Nat) : num a / pow10 d = num (a / 10 ^ d) :=
  div_num_num a _ (by positivity)

theorem inf_div_pow10 (d : Nat) : inf / pow10 d = inf := by
  show div inf (pow10 d) = inf
  have h : (0 : ℚ) ≤ 10 ^ d := by positivity
  simp [div, pow10, h]

theorem mul_num_inf (a : ℚ) (ha : 0 < a) : num a * inf = inf := by
  show mul (num a) inf = inf
  simp [mul, ha, ha.ne']

theorem inf_mul_num (a : ℚ) (ha : 0 < a) : inf * num a = inf := by
  show mul inf (num a) = inf
  simp [mul, ha, ha.ne']

end JSNum

/-! ## Endpoint-failover query executor (`query`, src/functions.ts lines 27-49) -/

/-- A decoded JavaScript value: a payload together with its JS truthiness
(`0`, `''`, `false`, `NaN` are falsy; objects such as ethers `BigNumber`
results are always truthy). The retry loop tests `!result`. -/
structure JSVal where
  val : Nat
  truthy : Bool
deriving DecidableEq

/-- `maxQueryRetries` (src/functions.ts line 16). -/
def maxQueryRetries : Nat := 3

/-- `ignoredErrors` (src/functions.ts lines 19-22): the static suppression
list of known-unreliable (chain, address) pairs. -/
def ignoredErrors : List (String × String) :=
  [("poly", "0x8aaa5e259f74c8114e0a471d9f2adfc66bfe09ed"),
   ("poly", "0x9dd12421c637689c3fc6e661c9e2f02c2f61b3eb")]

/-- `s.toLowerCase()` as JavaScript performs it on ASCII addresses,
modelled on the character list so that it evaluates by kernel reduction. -/
def jsToLower (s : String) : String := String.mk (s.data.map Char.toLower)

/-- The suppression test performed on final abandonment:
`ignoredErrors.find(i => i.chain === chain && i.address === address.toLowerCase())`. -/
def isSuppressed (chain address : String) : Bool :=
  (ignoredErrors.find? (fun i => i.1 == chain && i.2 == jsToLower address)).isSome

/-- Truthiness test of the loop guard `!result`: `undefined` (no result yet)
and falsy decoded values both keep the loop running. -/
def jsFalsy : Option JSVal → Bool
  | none => true
  | some v => !v.truthy

/-- The guard of `while(!result && errors < maxQueryRetries)`. -/
def loopCond (result : Option JSVal) (errors : Nat) : Bool :=
  jsFalsy result && decide (errors < maxQueryRetries)

/-- The observable outcome of one `query` call: the returned result, the
number of contract-call attempts made, the number of diagnostics emitted via
`console.error`, and whether the loop was still running when fuel ran out. -/
structure QueryOut where
  result : Option JSVal
  attempts : Nat
  logs : Nat
  looping : Bool
deriving DecidableEq

/-- The body of `query`'s retry loop (src/functions.ts lines 31-47), run on
explicit fuel. State: `t` counts attempts made so far (and indexes the
outcome oracle), `result` is the JS `result` variable, `errors` and `rpcID`
are the two loop counters, `logs` counts diagnostics emitted. On a thrown
call (`outcome t = none`): advance `rpcID`; when it reaches the endpoint
count, bump `errors`, and either log (unless suppressed) on the final pass
or reset `rpcID` to 0. -/
def queryLoop (outcome : Nat → Option JSVal) (numRpcs : Nat) (suppressed : Bool) :
    Nat → Nat → Option JSVal → Nat → Nat → Nat → QueryOut
  | 0, t, result, errors, _, logs => ⟨result, t, logs, loopCond result errors⟩
  | fuel + 1, t, result, errors, rpcID, logs =>
    if loopCond result errors then
      match outcome t with
      | some v => queryLoop outcome numRpcs suppressed fuel (t + 1) (some v) errors rpcID logs
      | none =>
        if numRpcs ≤ rpcID + 1 then
          if maxQueryRetries ≤ errors + 1 then
            queryLoop outcome numRpcs suppressed fuel (t + 1) result (errors + 1) (rpcID + 1)
              (logs + (if suppressed then 0 else 1))
          else
            queryLoop outcome numRpcs suppressed fuel (t + 1) result (errors + 1) 0 logs
        else
          queryLoop outcome numRpcs suppressed fuel (t + 1) result errors (rpcID + 1) logs
    else ⟨result, t, logs, false⟩

/-- `query(chain, address, abi, method, args)` for a chain with `numRpcs`
configured endpoints, with the per-attempt outcomes given by the oracle. -/
def query (outcome : Nat → Option JSVal) (numRpcs : Nat) (chain address : String)
    (fuel : Nat) : QueryOut :=
  queryLoop outcome numRpcs (isSuppressed chain address) fuel 0 none 0 0 0

/-- Once the guard is false the loop exits immediately, at any fuel. -/
theorem queryLoop_exit (outcome : Nat → Option JSVal) (numRpcs : Nat) (suppressed : Bool)
    (fuel t : Nat) (result : Option JSVal) (errors rpcID logs : Nat)
    (h : loopCond result errors = false) :
    queryLoop outcome numRpcs suppressed fuel t result errors rpcID logs =
      ⟨result, t, logs, false⟩ := by
  cases fuel with
  | zero => simp [queryLoop, h]
  | succ fuel => simp [queryLoop, h]

/-- With a method that fails on every attempt, from any mid-loop state
(`errors = e < 3`, `rpcID = r < N`) the loop makes exactly `(3 - e) * N - r`
further attempts, returns no result, and emits exactly one diagnostic
(unless suppressed). -/
theorem queryLoop_allFail (numRpcs : Nat) (suppressed : Bool) (hN : 1 ≤ numRpcs) :
    ∀ fuel e r t logs, e < maxQueryRetries → r < numRpcs →
      (maxQueryRetries - e) * numRpcs - r ≤ fuel →
      queryLoop (fun _ => none) numRpcs suppressed fuel t none e r logs =
        ⟨none, t + ((maxQueryRetries - e) * numRpcs - r),
          logs + (if suppressed then 0 else 1), false⟩ := by
  intro fuel
  induction fuel with
  | zero =>
    intro e r t logs he hr hfuel
    exfalso
    have he3 : e < 3 := he
    simp only [maxQueryRetries] at hfuel
    interval_cases e <;> omega
  | succ fuel ih =>
    intro e r t logs he hr hfuel
    have he3 : e < 3 := he
    have hcond : loopCond none e = true := by
      simp [loopCond, jsFalsy, he]
    rw [queryLoop]
    simp only [hcond, if_true]
    by_cases hwrap : numRpcs ≤ r + 1
    · by_cases hlast : maxQueryRetries ≤ e + 1
      · -- final pass completed: log once and exit with errors = 3
        have hl3 : 3 ≤ e + 1 := hlast
        have he2 : e = 2 := by omega
        subst he2
        simp only [hwrap, if_true, hlast, if_true]
        rw [queryLoop_exit]
        · have harith : (maxQueryRetries - 2) * numRpcs - r = 1 := by
            simp only [maxQueryRetries]
            omega
          rw [harith]
        · simp [loopCond, maxQueryRetries]
      · -- pass completed, retry from endpoint 0
        have hl3 : ¬ (3 ≤ e + 1) := hlast
        simp only [hwrap, if_true, hlast, if_false]
        rw [ih (e + 1) 0 (t + 1) logs (by simp only [maxQueryRetries]; omega) (by omega) ?_]
        · have harith : t + 1 + ((maxQueryRetries - (e + 1)) * numRpcs - 0) =
              t + ((maxQueryRetries - e) * numRpcs - r) := by
            simp only [maxQueryRetries]
            interval_cases e <;> omega
          rw [harith]
        · simp only [maxQueryRetries] at hfuel ⊢
          interval_cases e <;> omega
    · -- advance to the next endpoint within the same pass
      simp only [hwrap, if_false]
      rw [ih e (r + 1) (t + 1) logs he (by omega) ?_]
      · have harith : t + 1 + ((maxQueryRetries - e) * numRpcs - (r + 1)) =
            t + ((maxQueryRetries - e) * numRpcs - r) := by
          simp only [maxQueryRetries]
          interval_cases e <;> omega
        rw [harith]
      · simp only [maxQueryRetries] at hfuel ⊢
        interval_cases e <;> omega

/-- With outcomes failing strictly before attempt `k` and decoding a truthy
value at attempt `k` (`k` within the first pass), the loop returns that value
after exactly `k + 1` attempts, with no diagnostics. -/
theorem queryLoop_firstSuccess (outcome : Nat → Option JSVal) (numRpcs : Nat)
    (suppressed : Bool) (k : Nat) (v : JSVal) (hv : v.truthy = true)
    (hk : k < numRpcs) (hfail : ∀ t, t < k → outcome t = none)
    (hsucc : outcome k = some v) :
    ∀ fuel j logs, j ≤ k → k + 1 - j ≤ fuel →
      queryLoop outcome numRpcs suppressed fuel j none 0 j logs =
        ⟨some v, k + 1, logs, false⟩ := by
  intro fuel
  induction fuel with
  | zero =>
    intro j logs hj hfuel
    omega
  | succ fuel ih =>
    intro j logs hj hfuel
    have hcond : loopCond none 0 = true := by
      simp [loopCond, jsFalsy, maxQueryRetries]
    rw [queryLoop]
    simp only [hcond, if_true]
    rcases Nat.lt_or_ge j k with hjk | hjk
    · rw [hfail j hjk]
      have hnowrap : ¬ (numRpcs ≤ j + 1) := by omega
      simp only [hnowrap, if_false]
      exact ih (j + 1) logs (by omega) (by omega)
    · have hjeq : j = k := by omega
      subst hjeq
      rw [hsucc]
      exact queryLoop_exit outcome numRpcs suppressed fuel (j + 1) (some v) 0 j logs
        (by simp [loopCond, jsFalsy, hv])

/-- **C1**: for a chain with `numRpcs ≥ 1` endpoints and a contract method
that fails on every attempt, `query` returns an absent result without
raising, after exactly `numRpcs * 3` attempts (3 full passes over the
endpoint list), and emits exactly one diagnostic unless the
(chain, lowercased address) pair is on the static suppression list. -/
theorem query_always_fails_absent (outcome : Nat → Option JSVal)
    (numRpcs fuel : Nat) (chain address : String)
    (hout : ∀ t, outcome t = none) (hN : 1 ≤ numRpcs)
    (hfuel : numRpcs * maxQueryRetries ≤ fuel) :
    query outcome numRpcs chain address fuel =
      ⟨none, numRpcs * maxQueryRetries,
        if isSuppressed chain address then 0 else 1, false⟩ := by
  have ho : outcome = fun _ => none := funext hout
  subst ho
  unfold query
  rw [queryLoop_allFail numRpcs (isSuppressed chain address) hN fuel 0 0 0 0
    (by simp [maxQueryRetries]) (by omega)
    (by simp only [maxQueryRetries] at hfuel ⊢; omega)]
  simp only [maxQueryRetries, Nat.sub_zero, Nat.zero_add]
  rw [Nat.mul_comm numRpcs 3]

/-- Witness for **C1**: one endpoint, all three passes fail, three attempts,
one diagnostic (the pair ("eth", "0xab") is not suppression-listed). -/
theorem query_always_fails_absent_witness :
    query (fun _ => none) 1 "eth" "0xab" 3 = ⟨none, 3, 1, false⟩ := by
  have h := query_always_fails_absent (fun _ => none) 1 3 "eth" "0xab"
    (fun _ => rfl) (by decide) (by decide)
  have hs : isSuppressed "eth" "0xab" = false := by decide
  rw [h, hs]
  rfl

/-- **C2** counterexample: with two endpoints and a method whose very first
attempt (k = 0 prior failures) decodes successfully to the falsy value `0`,
the claim requires the decoded result to be returned after at most 1 attempt.
The loop guard `while(!result && ...)` instead treats the falsy decode like
no result: after fuel 10 the code has made 10 attempts and is still looping. -/
theorem query_falsy_decode_counterexample :
    query (fun _ => some ⟨0, false⟩) 2 "eth" "0xdead" 10 =
      ⟨some ⟨0, false⟩, 10, 0, true⟩ ∧
    ¬ (query (fun _ => some ⟨0, false⟩) 2 "eth" "0xdead" 10).attempts ≤ 1 := by
  constructor
  · rfl
  · decide

/-- **C2** (amended): for every call where the first `k < numRpcs` attempts
fail and attempt `k + 1` decodes successfully to a *truthy* value, `query`
returns that decoded value immediately, after exactly `k + 1` attempts and
with no diagnostic; only a falsy decode (or a thrown call) keeps the
retry/failover loop running. -/
theorem query_first_truthy_success (outcome : Nat → Option JSVal)
    (numRpcs k fuel : Nat) (chain address : String) (v : JSVal)
    (hv : v.truthy = true) (hk : k < numRpcs)
    (hfail : ∀ t, t < k → outcome t = none) (hsucc : outcome k = some v)
    (hfuel : k + 1 ≤ fuel) :
    query outcome numRpcs chain address fuel = ⟨some v, k + 1, 0, false⟩ :=
  queryLoop_firstSuccess outcome numRpcs (isSuppressed chain address) k v hv hk
    hfail hsucc fuel 0 0 (by omega) (by omega)

/-- Witness for the amended **C2**: two endpoints, the first attempt throws,
the second decodes the truthy value 7; `query` returns it after exactly 2
attempts with no diagnostics. -/
theorem query_first_truthy_success_witness :
    query (fun t => if t = 0 then none else some ⟨7, true⟩) 2 "eth" "0xab" 5 =
      ⟨some ⟨7, true⟩, 2, 0, false⟩ := by
  have h := query_first_truthy_success
    (fun t => if t = 0 then none else some ⟨7, true⟩) 2 1 5 "eth" "0xab"
    ⟨7, true⟩ rfl (by decide) (fun t ht => by interval_cases t; rfl) rfl (by decide)
  exact h

/-! ## Known-token catalog and token shapes (src/functions.ts, src/types.ts) -/

/-- `defaultTokenLogo` (src/functions.ts line 13). -/
def defaultTokenLogo : String :=
  "https://cdn.jsdelivr.net/gh/atomiclabs/cryptocurrency-icons@d5c68edec1f5eaec59ac77ff2b48144679cebca1/32/icon/generic.png"

/-- `defaultAddress`, the native-coin sentinel (src/functions.ts line 14). -/
def defaultAddress : String := "0xeeeeeeeeeeeeeeeeeeeeeeeeeeeeeeeeeeeeeeee"

/-- One record of the known-token catalog (`TokenData` in src/types.ts). -/
structure TokenData where
  address : String
  symbol : String
  logo : String
  decimals : Nat
deriving DecidableEq

/-- A chain's token catalog (`tokens` plus the fallback `logos` table),
consumed read-only; the catalog itself is an external collaborator. -/
structure ChainTokenData where
  tokens : List TokenData
  logos : List (String × String)
deriving DecidableEq

/-- `getTokenLogo` (src/functions.ts lines 325-347): look the symbol up in
the chain's tracked tokens, then in the fallback logo table, else the
generic logo. `data` is `getChainTokenData(chain)`. -/
def getTokenLogo (data : Option ChainTokenData) (symbol : String) : String :=
  match data with
  | none => defaultTokenLogo
  | some d =>
    match d.tokens.find? (fun token => token.symbol == symbol) with
    | some trackedToken => trackedToken.logo
    | none =>
      match d.logos.find? (fun i => i.1 == symbol) with
      | some token => token.2
      | none => defaultTokenLogo

/-- `getTrackedTokenInfo` (src/functions.ts lines 444-451): case-insensitive
address lookup in the chain's catalog. -/
def getTrackedTokenInfo (data : Option ChainTokenData) (address : String) :
    Option TokenData :=
  match data with
  | some d => d.tokens.find? (fun token => jsToLower token.address == jsToLower address)
  | none => none

/-- `getNativeTokenSymbol` (src/functions.ts lines 473-483). -/
def getNativeTokenSymbol (chain : String) : String :=
  if chain = "bsc" then "BNB"
  else if chain = "poly" then "MATIC"
  else if chain = "cronos" then "CRO"
  else chain.toUpper

/-- The embedded `PricedToken` shape (a priced constituent). -/
structure PricedTokenT where
  symbol : String
  address : String
  balance : JSNum
  price : JSNum
  logo : String
deriving DecidableEq

/-- The `Token` / `DebtToken` shape (`type` distinguishes them). -/
structure TokenT where
  type : String
  chain : String
  location : String
  status : String
  owner : String
  symbol : String
  address : String
  balance : JSNum
  price : JSNum
  logo : String
deriving DecidableEq

/-- The `LPToken` shape: the share itself plus its two constituents. -/
structure LPTokenT where
  type : String
  chain : String
  location : String
  status : String
  owner : String
  symbol : String
  address : String
  balance : JSNum
  token0 : PricedTokenT
  token1 : PricedTokenT
deriving DecidableEq

/-- The `XToken` (derivative/composite) shape. -/
structure XTokenT where
  type : String
  chain : String
  location : String
  status : String
  owner : String
  symbol : String
  address : String
  balance : JSNum
  logo : String
  underlyingToken : PricedTokenT
deriving DecidableEq

/-! ## The token valuation engine (pure data paths)

Each `add*` builder below is the pure content of the corresponding `async`
function: every on-chain query result and every `getTokenPrice` result is an
explicit parameter (named `q…` for queried fallbacks, `price…` for resolved
prices), and the builder performs exactly the arithmetic and the
catalog-branching the source performs. -/

/-- The decimals `addToken`/`addDebtToken` end up normalizing by: 18 for the
native sentinel, the catalog entry's decimals when tracked, else the queried
decimals (src/functions.ts lines 122-139). -/
def resolvedDecimals (data : Option ChainTokenData) (address : String)
    (qDecimals : Nat) : Nat :=
  if jsToLower address = defaultAddress then 18
  else
    match getTrackedTokenInfo data address with
    | some token => token.decimals
    | none => qDecimals

/-- `addToken` (src/functions.ts lines 117-147). -/
def addToken (data : Option ChainTokenData) (chain location status owner address : String)
    (rawBalance : JSNum) (qSymbol : String) (qDecimals : Nat) (price : JSNum) : TokenT :=
  let sdl : String × Nat × String :=
    if jsToLower address = defaultAddress then
      let s := getNativeTokenSymbol chain
      (s, 18, getTokenLogo data s)
    else
      match getTrackedTokenInfo data address with
      | some token => (token.symbol, token.decimals, token.logo)
      | none => (qSymbol, qDecimals, getTokenLogo data qSymbol)
  { type := "token", chain := chain, location := location, status := status,
    owner := owner, symbol := sdl.1, address := address,
    balance := rawBalance / JSNum.pow10 sdl.2.1, price := price, logo := sdl.2.2 }

/-- `addDebtToken` (src/functions.ts lines 212-243): same resolution as
`addToken` with `type = 'debt'`, `status = 'borrowed'`. -/
def addDebtToken (data : Option ChainTokenData) (chain location owner address : String)
    (rawBalance : JSNum) (qSymbol : String) (qDecimals : Nat) (price : JSNum) : TokenT :=
  let sdl : String × Nat × String :=
    if jsToLower address = defaultAddress then
      let s := getNativeTokenSymbol chain
      (s, 18, getTokenLogo data s)
    else
      match getTrackedTokenInfo data address with
      | some token => (token.symbol, token.decimals, token.logo)
      | none => (qSymbol, qDecimals, getTokenLogo data qSymbol)
  { type := "debt", chain := chain, location := location, status := "borrowed",
    owner := owner, symbol := sdl.1, address := address,
    balance := rawBalance / JSNum.pow10 sdl.2.1, price := price, logo := sdl.2.2 }

/-- `addTrackedToken` (src/functions.ts lines 456-468). -/
def addTrackedToken (chain location status owner : String) (token : TokenData)
    (rawBalance : JSNum) (price : JSNum) : TokenT :=
  { type := "token", chain := chain, location := location, status := status,
    owner := owner, symbol := token.symbol, address := token.address,
    balance := rawBalance / JSNum.pow10 token.decimals, price := price,
    logo := token.logo }

/-- The symbol/decimals resolution `addLPToken` performs for one LP
constituent (src/functions.ts lines 169-184). -/
def lpConstituentInfo (data : Option ChainTokenData) (address0 : String)
    (qSymbol0 : String) (qDecimals0 : Nat) : String × Nat :=
  match getTrackedTokenInfo data address0 with
  | some t => (t.symbol, t.decimals)
  | none => (qSymbol0, qDecimals0)

/-- `addLPToken` (src/functions.ts lines 152-207). `reserves0`/`reserves1`
are `getReserves()[0]/[1]`, `lpSupplyRaw` is the raw `totalSupply()` result;
constituent symbol/decimals come from the catalog when tracked, else from
the queried fallbacks (`lpConstituentInfo`). -/
def addLPToken (data : Option ChainTokenData) (chain location status owner address : String)
    (rawBalance : JSNum) (qSymbol : String) (qDecimals : Nat)
    (reserves0 reserves1 lpSupplyRaw : JSNum) (address0 address1 : String)
    (qSymbol0 : String) (qDecimals0 : Nat) (qSymbol1 : String) (qDecimals1 : Nat)
    (price0 price1 : JSNum) : LPTokenT :=
  let balance := rawBalance / JSNum.pow10 qDecimals
  let lpTokenSupply := lpSupplyRaw / JSNum.pow10 qDecimals
  let sd0 := lpConstituentInfo data address0 qSymbol0 qDecimals0
  let sd1 := lpConstituentInfo data address1 qSymbol1 qDecimals1
  let supply0 := reserves0 / JSNum.pow10 sd0.2
  let supply1 := reserves1 / JSNum.pow10 sd1.2
  { type := "lpToken", chain := chain, location := location, status := status,
    owner := owner, symbol := qSymbol, address := address, balance := balance,
    token0 := { symbol := sd0.1, address := address0,
                balance := supply0 * (balance / lpTokenSupply),
                price := price0, logo := getTokenLogo data sd0.1 },
    token1 := { symbol := sd1.1, address := address1,
                balance := supply1 * (balance / lpTokenSupply),
                price := price1, logo := getTokenLogo data sd1.1 } }

/-- `addXToken` (src/functions.ts lines 248-284). Note: the tracked-token
lookup for the underlying token's symbol/decimals/logo is performed on the
*outer* composite `address`, not on `underlyingAddress`; the queried
fallbacks `qUnderlyingSymbol`/`qUnderlyingDecimals` are the on-chain reads
of `underlyingAddress` used only when that lookup misses. -/
def addXToken (data : Option ChainTokenData) (chain location status owner address : String)
    (rawBalance : JSNum) (qSymbol : String) (qDecimals : Nat)
    (underlyingAddress : String) (underlyingRawBalance : JSNum)
    (qUnderlyingSymbol : String) (qUnderlyingDecimals : Nat)
    (underlyingPrice : JSNum) : XTokenT :=
  let balance := rawBalance / JSNum.pow10 qDecimals
  let logo := getTokenLogo data qSymbol
  let usl : String × Nat × String :=
    match getTrackedTokenInfo data address with
    | some token => (token.symbol, token.decimals, token.logo)
    | none => (qUnderlyingSymbol, qUnderlyingDecimals,
               getTokenLogo data qUnderlyingSymbol)
  { type := "xToken", chain := chain, location := location, status := status,
    owner := owner, symbol := qSymbol, address := address, balance := balance,
    logo := logo,
    underlyingToken := { symbol := usl.1, address := underlyingAddress,
                         balance := underlyingRawBalance / JSNum.pow10 usl.2.1,
                         price := underlyingPrice, logo := usl.2.2 } }

/-- `addTraderJoeToken` (src/functions.ts lines 488-495): the xJOE staking
derivative; the underlying raw balance handed to `addXToken` is
`rawBalance * (joeStaked / xjoeSupply)`, with no guard on `xjoeSupply`. -/
def addTraderJoeToken (data : Option ChainTokenData) (chain location status owner : String)
    (rawBalance joeStaked xjoeSupply : JSNum) (qSymbol : String) (qDecimals : Nat)
    (qUnderlyingSymbol : String) (qUnderlyingDecimals : Nat)
    (underlyingPrice : JSNum) : XTokenT :=
  addXToken data chain location status owner
    "0x57319d41F71E81F3c65F2a47CA4e001EbAFd4F33" rawBalance qSymbol qDecimals
    "0x6e84a6216eA6dACC71eE8E6b0a5B7322EEbC0fDd"
    (rawBalance * (joeStaked / xjoeSupply))
    qUnderlyingSymbol qUnderlyingDecimals underlyingPrice

/-- Per-constituent data of a Balancer-like vault's `getPoolTokens` result,
together with the per-constituent queries the branch then makes:
`rawBalance` is `parseInt(poolInfo.balances[i])`, `decimals`/`symbol` the
on-chain reads, `price` the `getTokenPrice` result. -/
structure PoolTokenInfo where
  address : String
  symbol : String
  decimals : Nat
  rawBalance : JSNum
  price : JSNum
deriving DecidableEq

/-- `addCurveToken`/`addBalancerLikeToken` return `Token | LPToken`. -/
inductive SimpleOrLP where
  | simple : TokenT → SimpleOrLP
  | lp : LPTokenT → SimpleOrLP
deriving DecidableEq

/-- `addBalancerLikeToken` (src/functions.ts lines 1086-1161), paired with
the number of diagnostics it emits (this function contains no `console`
call, so that count is 0 on every path). 3+ constituents: one `Simple`
token priced as the reserve-value sum divided by the normalized share
supply. Exactly 2: an `LPToken` with pro-rata constituent balances (note the
source divides the *normalized* share balance by the *raw* supply here).
Fewer than 2: the `'???'` placeholder, returned silently. -/
def addBalancerLikeToken (data : Option ChainTokenData)
    (chain location status owner address : String) (rawBalance : JSNum)
    (qSymbol : String) (qDecimals : Nat) (lpSupplyRaw : JSNum)
    (poolTokens : List PoolTokenInfo) : SimpleOrLP × Nat :=
  let balance := rawBalance / JSNum.pow10 qDecimals
  if 2 < poolTokens.length then
    let priceSum := poolTokens.foldl
      (fun acc t => acc + (t.rawBalance / JSNum.pow10 t.decimals) * t.price)
      (JSNum.num 0)
    let price := priceSum / (lpSupplyRaw / JSNum.pow10 qDecimals)
    (.simple { type := "token", chain := chain, location := location,
               status := status, owner := owner, symbol := qSymbol,
               address := address, balance := balance, price := price,
               logo := getTokenLogo data qSymbol }, 0)
  else
    match poolTokens with
    | [t0, t1] =>
      (.lp { type := "lpToken", chain := chain, location := location,
             status := status, owner := owner, symbol := qSymbol,
             address := address, balance := balance,
             token0 := { symbol := t0.symbol, address := t0.address,
                         balance := (t0.rawBalance * (balance / lpSupplyRaw)) /
                           JSNum.pow10 t0.decimals,
                         price := t0.price, logo := getTokenLogo data t0.symbol },
             token1 := { symbol := t1.symbol, address := t1.address,
                         balance := (t1.rawBalance * (balance / lpSupplyRaw)) /
                           JSNum.pow10 t1.decimals,
                         price := t1.price, logo := getTokenLogo data t1.symbol } }, 0)
    | _ =>
      (.simple { type := "token", chain := chain, location := location,
                 status := "none", owner := owner, symbol := "???",
                 address := address, balance := JSNum.num 0,
                 price := JSNum.num 0, logo := defaultTokenLogo }, 0)

/-- The Polygon pool addresses `addCurveToken` decomposes (src/functions.ts
lines 709, 739, 752, 790), lowercased as the source compares them. -/
def curvePolyAddrs : List String :=
  ["0xdad97f7713ae9437fa9249920ec8507e5fbb23d3",
   "0xe7a24ef0c5e95ffb0f6684b813a78f2a3ad7d171",
   "0xf8a57c1d3b9629b77b6726a042ca48990a84fb49",
   "0x600743b1d8a96438bd46836fd34977a00293f6aa"]

/-- The Fantom pool addresses `addCurveToken` decomposes (lines 823, 860,
873, 911, 938). -/
def curveFtmAddrs : List String :=
  ["0x27e611fd27b276acbd5ffd632e5eaebec9761e40",
   "0x92d5ebf3593a92888c25c0abef126583d4b5312e",
   "0x5b5cfe992adac0c9d48e05854b2d91c73a003858",
   "0x58e57ca18b7a47112b877e31929798cd3d703b0f",
   "0xd02a30d33153877bc20e5721ee53dedee0422b2f"]

/-- The Avalanche pool addresses `addCurveToken` decomposes (lines 960, 990,
1003). -/
def curveAvaxAddrs : List String :=
  ["0x1dab6560494b04473a0be3e7d83cf3fdf3a51828",
   "0x1337bedc9d22ecbe766df105c9623922a27963ec",
   "0xc2b1df84112619d190193e48148000e3990bf627"]

/-- Whether a pool address matches one of `addCurveToken`'s known
decomposition rules for its chain. On `eth` the rule is driven by the
registry: the branch fires when the pool's filtered underlying-coin list has
2 or more entries (`ethUnderlyingCount`); on `poly`/`ftm`/`avax` it is a
literal lowercased-address comparison; every other chain has no rule. -/
def curveMatches (chain address : String) (ethUnderlyingCount : Nat) : Bool :=
  if chain = "eth" then decide (2 ≤ ethUnderlyingCount)
  else if chain = "poly" then curvePolyAddrs.contains (jsToLower address)
  else if chain = "ftm" then curveFtmAddrs.contains (jsToLower address)
  else if chain = "avax" then curveAvaxAddrs.contains (jsToLower address)
  else false

/-- The `No Token Identified` placeholder of `addCurveToken`
(src/functions.ts lines 1044-1055). -/
def curvePlaceholder (chain location owner address : String) : TokenT :=
  { type := "token", chain := chain, location := location, status := "none",
    owner := owner, symbol := "???", address := address,
    balance := JSNum.num 0, price := JSNum.num 0, logo := defaultTokenLogo }

/-- The dispatch skeleton of `addCurveToken` (src/functions.ts lines
605-1056), paired with the number of diagnostics emitted. The bodies of the
identified per-pool branches are abstracted as `identified` (the claims
settled here concern only the unmatched path); when no rule matches, the
source logs `Unidentified Curve Token` once and returns the placeholder. -/
def addCurveToken (identified : SimpleOrLP)
    (chain location status owner address : String)
    (ethUnderlyingCount : Nat) : SimpleOrLP × Nat :=
  if curveMatches chain address ethUnderlyingCount then (identified, 0)
  else (.simple (curvePlaceholder chain location owner address), 1)

/-! ## Project handlers and the balance dispatcher -/

/-- The Iron handler's `get` (src/unnamed/part_000 lines 18-29): four
sequential steps inside one `try`, each pushing its positions into the
accumulator as it completes; a `catch` around the whole sequence logs once
and the already-pushed positions are returned. Each step is `.ok` with its
positions or `.error` when it throws; the second component counts
diagnostics. -/
def ironGet {α : Type} (farm market rewards staked : Except Unit (List α)) :
    List α × Nat :=
  match farm with
  | .error _ => ([], 1)
  | .ok a =>
    match market with
    | .error _ => (a, 1)
    | .ok b =>
      match rewards with
      | .error _ => (a ++ b, 1)
      | .ok c =>
        match staked with
        | .error _ => (a ++ b ++ c, 1)
        | .ok d => (a ++ b ++ c ++ d, 0)

/-- The PoolTogether handler's `get` (src/projects/poly/pooltogether.ts
lines 16-24): a single step inside the same try/catch shape. -/
def pooltogetherGet {α : Type} (pool : Except Unit (List α)) : List α × Nat :=
  match pool with
  | .error _ => ([], 1)
  | .ok a => (a, 0)

/-- `getProjectBalance` (src/functions.ts lines 74-84): validate the project
name against the chain's known set (the project catalog `projects` and the
handler modules `dapps` are external collaborators, passed as parameters);
unknown names log `Invalid Project Queried` once and yield the empty list. -/
def getProjectBalance {α : Type} (projects : String → List String)
    (dapps : String → String → String → List α)
    (chain wallet project : String) : List α × Nat :=
  if (projects chain).contains project then (dapps chain project wallet, 0)
  else ([], 1)

/-! ## The price cache (spec-modelled) and repeat-invariance -/

/-- A process-wide price cache: (chain, lowercased address) keyed records. -/
abbrev Cache := List ((String × String) × ℚ)

/-- Cache lookup by key. -/
def cacheLookup (c : Cache) (key : String × String) : Option ℚ :=
  match c.find? (fun e => e.1 == key) with
  | some e => some e.2
  | none => none

/-- Modelled from the spec: `getTokenPrice` lives in `src/prices.ts`, which
is not among the provided sources. Per spec section 4.3 it returns the
cached price on a hit and, on a miss, computes the price from the external
price source (`oracle`, an out-of-scope collaborator) and writes it through
to the cache keyed by (chain, lowercased address). -/
def getTokenPriceSt (oracle : String → String → ℚ) (c : Cache)
    (chain address : String) : ℚ × Cache :=
  match cacheLookup c (chain, jsToLower address) with
  | some p => (p, c)
  | none => (oracle chain address, ((chain, jsToLower address), oracle chain address) :: c)

/-- `addToken` with its `getTokenPrice` call threaded through the cache. -/
def addTokenRun (oracle : String → String → ℚ) (data : Option ChainTokenData)
    (chain location status owner address : String) (rawBalance : JSNum)
    (qSymbol : String) (qDecimals : Nat) (c : Cache) : TokenT × Cache :=
  let pc := getTokenPriceSt oracle c chain address
  (addToken data chain location status owner address rawBalance qSymbol qDecimals
    (JSNum.num pc.1), pc.2)

/-- `addDebtToken` with its `getTokenPrice` call threaded through the cache. -/
def addDebtTokenRun (oracle : String → String → ℚ) (data : Option ChainTokenData)
    (chain location owner address : String) (rawBalance : JSNum)
    (qSymbol : String) (qDecimals : Nat) (c : Cache) : TokenT × Cache :=
  let pc := getTokenPriceSt oracle c chain address
  (addDebtToken data chain location owner address rawBalance qSymbol qDecimals
    (JSNum.num pc.1), pc.2)

/-- `addXToken` with its underlying `getTokenPrice` call threaded through
the cache. -/
def addXTokenRun (oracle : String → String → ℚ) (data : Option ChainTokenData)
    (chain location status owner address : String) (rawBalance : JSNum)
    (qSymbol : String) (qDecimals : Nat) (underlyingAddress : String)
    (underlyingRawBalance : JSNum) (qUnderlyingSymbol : String)
    (qUnderlyingDecimals : Nat) (c : Cache) : XTokenT × Cache :=
  let pc := getTokenPriceSt oracle c chain underlyingAddress
  (addXToken data chain location status owner address rawBalance qSymbol qDecimals
    underlyingAddress underlyingRawBalance qUnderlyingSymbol qUnderlyingDecimals
    (JSNum.num pc.1), pc.2)

/-- `addLPToken` with its two constituent `getTokenPrice` calls threaded
through the cache in source order. -/
def addLPTokenRun (oracle : String → String → ℚ) (data : Option ChainTokenData)
    (chain location status owner address : String) (rawBalance : JSNum)
    (qSymbol : String) (qDecimals : Nat) (reserves0 reserves1 lpSupplyRaw : JSNum)
    (address0 address1 : String) (qSymbol0 : String) (qDecimals0 : Nat)
    (qSymbol1 : String) (qDecimals1 : Nat) (c : Cache) : LPTokenT × Cache :=
  let pc0 := getTokenPriceSt oracle c chain address0
  let pc1 := getTokenPriceSt oracle pc0.2 chain address1
  (addLPToken data chain location status owner address rawBalance qSymbol qDecimals
    reserves0 reserves1 lpSupplyRaw address0 address1 qSymbol0 qDecimals0
    qSymbol1 qDecimals1 (JSNum.num pc0.1) (JSNum.num pc1.1), pc1.2)

/-- After a `getTokenPriceSt` call its key is cached with exactly the
returned price. -/
theorem cacheLookup_after (oracle : String → String → ℚ) (c : Cache)
    (chain address : String) :
    cacheLookup (getTokenPriceSt oracle c chain address).2 (chain, jsToLower address) =
      some (getTokenPriceSt oracle c chain address).1 := by
  unfold getTokenPriceSt
  cases h : cacheLookup c (chain, jsToLower address) with
  | some p => exact h
  | none => simp [h, cacheLookup, List.find?]

/-- A cached key makes `getTokenPriceSt` a pure read. -/
theorem getTokenPriceSt_of_cached (oracle : String → String → ℚ) (c : Cache)
    (chain address : String) (p : ℚ)
    (h : cacheLookup c (chain, jsToLower address) = some p) :
    getTokenPriceSt oracle c chain address = (p, c) := by
  unfold getTokenPriceSt
  rw [h]

/-- `getTokenPriceSt` never disturbs an existing cache entry. -/
theorem cacheLookup_preserved (oracle : String → String → ℚ) (c : Cache)
    (chain address : String) (key : String × String) (p : ℚ)
    (h : cacheLookup c key = some p) :
    cacheLookup (getTokenPriceSt oracle c chain address).2 key = some p := by
  unfold getTokenPriceSt
  cases hl : cacheLookup c (chain, jsToLower address) with
  | some q => exact h
  | none =>
    have hne : ((chain, jsToLower address) == key) = false := by
      rcases hbe : (chain, jsToLower address) == key with _ | _
      · rfl
      · exfalso
        have : (chain, jsToLower address) = key := eq_of_beq hbe
        rw [this] at hl
        rw [hl] at h
        exact Option.noConfusion h
    simp only [cacheLookup, List.find?, hne]
    exact h

/-! ## Claim theorems: the valuation engine -/

/-- **C4**: for an LP pair built by `addLPToken` with normalized total
supply `S = lpSupplyRaw / 10^qDecimals > 0`, normalized reserves
`r0 = reserves0 / 10^d0` and `r1 = reserves1 / 10^d1` (with `d0`, `d1` the
resolved constituent decimals), and normalized holder share
`h = rawBalance / 10^qDecimals`, the constituent balances are exactly
`r0 * (h / S)` and `r1 * (h / S)`, hence `c0 / r0 = c1 / r1 = h / S`
whenever `r0`, `r1` are nonzero. -/
theorem addLPToken_prorata (data : Option ChainTokenData)
    (chain location status owner address address0 address1 : String)
    (rawBalance reserves0 reserves1 lpSupplyRaw : ℚ)
    (qSymbol : String) (qDecimals : Nat) (qSymbol0 : String) (qDecimals0 : Nat)
    (qSymbol1 : String) (qDecimals1 : Nat) (price0 price1 : JSNum)
    (hS : 0 < lpSupplyRaw) (h0 : reserves0 ≠ 0) (h1 : reserves1 ≠ 0) :
    (addLPToken data chain location status owner address (JSNum.num rawBalance)
        qSymbol qDecimals (JSNum.num reserves0) (JSNum.num reserves1)
        (JSNum.num lpSupplyRaw) address0 address1 qSymbol0 qDecimals0
        qSymbol1 qDecimals1 price0 price1).token0.balance =
      JSNum.num ((reserves0 / 10 ^ (lpConstituentInfo data address0 qSymbol0 qDecimals0).2) *
        ((rawBalance / 10 ^ qDecimals) / (lpSupplyRaw / 10 ^ qDecimals))) ∧
    (addLPToken data chain location status owner address (JSNum.num rawBalance)
        qSymbol qDecimals (JSNum.num reserves0) (JSNum.num reserves1)
        (JSNum.num lpSupplyRaw) address0 address1 qSymbol0 qDecimals0
        qSymbol1 qDecimals1 price0 price1).token1.balance =
      JSNum.num ((reserves1 / 10 ^ (lpConstituentInfo data address1 qSymbol1 qDecimals1).2) *
        ((rawBalance / 10 ^ qDecimals) / (lpSupplyRaw / 10 ^ qDecimals))) ∧
    ((reserves0 / 10 ^ (lpConstituentInfo data address0 qSymbol0 qDecimals0).2) *
        ((rawBalance / 10 ^ qDecimals) / (lpSupplyRaw / 10 ^ qDecimals))) /
      (reserves0 / 10 ^ (lpConstituentInfo data address0 qSymbol0 qDecimals0).2) =
        (rawBalance / 10 ^ qDecimals) / (lpSupplyRaw / 10 ^ qDecimals) ∧
    ((reserves1 / 10 ^ (lpConstituentInfo data address1 qSymbol1 qDecimals1).2) *
        ((rawBalance / 10 ^ qDecimals) / (lpSupplyRaw / 10 ^ qDecimals))) /
      (reserves1 / 10 ^ (lpConstituentInfo data address1 qSymbol1 qDecimals1).2) =
        (rawBalance / 10 ^ qDecimals) / (lpSupplyRaw / 10 ^ qDecimals) := by
  have hSn : lpSupplyRaw / 10 ^ qDecimals ≠ 0 := by positivity
  have hr0 : reserves0 / 10 ^ (lpConstituentInfo data address0 qSymbol0 qDecimals0).2 ≠ 0 := by
    exact div_ne_zero h0 (by positivity)
  have hr1 : reserves1 / 10 ^ (lpConstituentInfo data address1 qSymbol1 qDecimals1).2 ≠ 0 := by
    exact div_ne_zero h1 (by positivity)
  refine ⟨?_, ?_, mul_div_cancel_left₀ _ hr0, mul_div_cancel_left₀ _ hr1⟩
  · show JSNum.num reserves0 / JSNum.pow10 _ *
      ((JSNum.num rawBalance / JSNum.pow10 qDecimals) /
       (JSNum.num lpSupplyRaw / JSNum.pow10 qDecimals)) = _
    rw [JSNum.num_div_pow10, JSNum.num_div_pow10, JSNum.num_div_pow10,
      JSNum.div_num_num _ _ hSn, JSNum.mul_num_num]
  · show JSNum.num reserves1 / JSNum.pow10 _ *
      ((JSNum.num rawBalance / JSNum.pow10 qDecimals) /
       (JSNum.num lpSupplyRaw / JSNum.pow10 qDecimals)) = _
    rw [JSNum.num_div_pow10, JSNum.num_div_pow10, JSNum.num_div_pow10,
      JSNum.div_num_num _ _ hSn, JSNum.mul_num_num]

/-- Witness for **C4**: supply 2, share 1, reserves 4 and 6 (all with
decimals 0, untracked constituents): constituent balances 2 and 3, and both
ratios equal 1/2. -/
theorem addLPToken_prorata_witness :
    (addLPToken none "eth" "loc" "none" "0xowner" "0xpool" (JSNum.num 1) "LP" 0
        (JSNum.num 4) (JSNum.num 6) (JSNum.num 2) "0xa" "0xb" "T0" 0 "T1" 0
        (JSNum.num 1) (JSNum.num 1)).token0.balance = JSNum.num 2 ∧
    (addLPToken none "eth" "loc" "none" "0xowner" "0xpool" (JSNum.num 1) "LP" 0
        (JSNum.num 4) (JSNum.num 6) (JSNum.num 2) "0xa" "0xb" "T0" 0 "T1" 0
        (JSNum.num 1) (JSNum.num 1)).token1.balance = JSNum.num 3 := by
  have h := addLPToken_prorata none "eth" "loc" "none" "0xowner" "0xpool" "0xa" "0xb"
    1 4 6 2 "LP" 0 "T0" 0 "T1" 0 (JSNum.num 1) (JSNum.num 1)
    (by norm_num) (by norm_num) (by norm_num)
  refine ⟨h.1.trans ?_, h.2.1.trans ?_⟩ <;> norm_num [lpConstituentInfo, getTrackedTokenInfo]

/-- **C3** counterexample: `addLPToken` with a zero raw total supply and a
positive holder balance (all decimals 0, reserves 4 and 6) produces a
constituent balance of `Infinity`, not 0: the division
`balance / lpTokenSupply` is not guarded against a zero supply. -/
theorem addLPToken_divzero_counterexample :
    (addLPToken none "eth" "loc" "none" "0xowner" "0xpool" (JSNum.num 1) "LP" 0
        (JSNum.num 4) (JSNum.num 6) (JSNum.num 0) "0xa" "0xb" "T0" 0 "T1" 0
        (JSNum.num 1) (JSNum.num 1)).token0.balance = JSNum.inf ∧
    JSNum.inf ≠ JSNum.num 0 := by
  constructor
  · show JSNum.num 4 / JSNum.pow10 0 *
      (JSNum.num 1 / JSNum.pow10 0 / (JSNum.num 0 / JSNum.pow10 0)) = JSNum.inf
    rw [JSNum.num_div_pow10, JSNum.num_div_pow10, JSNum.num_div_pow10]
    norm_num
    rw [JSNum.div_num_zero_pos 1 one_pos]
    exact JSNum.mul_num_inf 4 (by norm_num)
  · decide

/-- **C3** (amended): the pricing paths contain no division-by-zero guards.
With a zero total LP supply, `addLPToken` puts `Infinity` into both
constituent balances (for positive share and reserves); with a zero xJOE
share supply, `addTraderJoeToken` puts `Infinity` into the underlying
balance; with a zero Balancer share supply, the 3+-asset branch of
`addBalancerLikeToken` returns a token priced `Infinity`. NaN/Infinity is
propagated into the returned Token rather than being replaced by 0. -/
theorem valuation_divzero_unguarded :
    (∀ (data : Option ChainTokenData)
       (chain location status owner address address0 address1 : String)
       (rawBalance reserves0 reserves1 : ℚ) (qSymbol : String) (qDecimals : Nat)
       (qSymbol0 : String) (qDecimals0 : Nat) (qSymbol1 : String) (qDecimals1 : Nat)
       (price0 price1 : JSNum), 0 < rawBalance → 0 < reserves0 → 0 < reserves1 →
       (addLPToken data chain location status owner address (JSNum.num rawBalance)
           qSymbol qDecimals (JSNum.num reserves0) (JSNum.num reserves1)
           (JSNum.num 0) address0 address1 qSymbol0 qDecimals0
           qSymbol1 qDecimals1 price0 price1).token0.balance = JSNum.inf ∧
       (addLPToken data chain location status owner address (JSNum.num rawBalance)
           qSymbol qDecimals (JSNum.num reserves0) (JSNum.num reserves1)
           (JSNum.num 0) address0 address1 qSymbol0 qDecimals0
           qSymbol1 qDecimals1 price0 price1).token1.balance = JSNum.inf) ∧
    (∀ (data : Option ChainTokenData) (chain location status owner : String)
       (rawBalance joeStaked : ℚ) (qSymbol : String) (qDecimals : Nat)
       (qUnderlyingSymbol : String) (qUnderlyingDecimals : Nat)
       (underlyingPrice : JSNum), 0 < rawBalance → 0 < joeStaked →
       (addTraderJoeToken data chain location status owner (JSNum.num rawBalance)
           (JSNum.num joeStaked) (JSNum.num 0) qSymbol qDecimals
           qUnderlyingSymbol qUnderlyingDecimals
           underlyingPrice).underlyingToken.balance = JSNum.inf) ∧
    (∀ (data : Option ChainTokenData) (chain location status owner address : String)
       (rawBalance : JSNum) (qSymbol : String) (qDecimals : Nat)
       (t0 t1 t2 : PoolTokenInfo) (q0 q1 q2 p0 p1 p2 : ℚ),
       t0.rawBalance = JSNum.num q0 → t1.rawBalance = JSNum.num q1 →
       t2.rawBalance = JSNum.num q2 → t0.price = JSNum.num p0 →
       t1.price = JSNum.num p1 → t2.price = JSNum.num p2 →
       0 < q0 / 10 ^ t0.decimals * p0 + q1 / 10 ^ t1.decimals * p1 +
         q2 / 10 ^ t2.decimals * p2 →
       ∃ tok : TokenT,
         (addBalancerLikeToken data chain location status owner address rawBalance
           qSymbol qDecimals (JSNum.num 0) [t0, t1, t2]).1 = .simple tok ∧
         tok.price = JSNum.inf) := by
  refine ⟨?_, ?_, ?_⟩
  · intro data chain location status owner address address0 address1
      rawBalance reserves0 reserves1 qSymbol qDecimals qSymbol0 qDecimals0
      qSymbol1 qDecimals1 price0 price1 hb h0 h1
    have hbn : 0 < rawBalance / 10 ^ qDecimals := by positivity
    have hdiv : JSNum.num rawBalance / JSNum.pow10 qDecimals /
        (JSNum.num 0 / JSNum.pow10 qDecimals) = JSNum.inf := by
      rw [JSNum.num_div_pow10, JSNum.num_div_pow10]
      norm_num
      exact JSNum.div_num_zero_pos _ hbn
    constructor
    · show JSNum.num reserves0 / JSNum.pow10 _ *
        (JSNum.num rawBalance / JSNum.pow10 qDecimals /
         (JSNum.num 0 / JSNum.pow10 qDecimals)) = JSNum.inf
      rw [hdiv, JSNum.num_div_pow10]
      exact JSNum.mul_num_inf _ (by positivity)
    · show JSNum.num reserves1 / JSNum.pow10 _ *
        (JSNum.num rawBalance / JSNum.pow10 qDecimals /
         (JSNum.num 0 / JSNum.pow10 qDecimals)) = JSNum.inf
      rw [hdiv, JSNum.num_div_pow10]
      exact JSNum.mul_num_inf _ (by positivity)
  · intro data chain location status owner rawBalance joeStaked qSymbol qDecimals
      qUnderlyingSymbol qUnderlyingDecimals underlyingPrice hb hj
    show (addXToken _ _ _ _ _ _ _ _ _ _ _ _ _ _).underlyingToken.balance = JSNum.inf
    have hdiv : JSNum.num joeStaked / JSNum.num 0 = JSNum.inf :=
      JSNum.div_num_zero_pos _ hj
    have hmul : JSNum.num rawBalance * (JSNum.num joeStaked / JSNum.num 0) = JSNum.inf := by
      rw [hdiv]
      exact JSNum.mul_num_inf _ hb
    show JSNum.num rawBalance * (JSNum.num joeStaked / JSNum.num 0) /
      JSNum.pow10 _ = JSNum.inf
    rw [hmul]
    exact JSNum.inf_div_pow10 _
  · intro data chain location status owner address rawBalance qSymbol qDecimals
      t0 t1 t2 q0 q1 q2 p0 p1 p2 hq0 hq1 hq2 hp0 hp1 hp2 hsum
    refine ⟨_, rfl, ?_⟩
    show ([t0, t1, t2].foldl
        (fun acc t => acc + (t.rawBalance / JSNum.pow10 t.decimals) * t.price)
        (JSNum.num 0)) / (JSNum.num 0 / JSNum.pow10 qDecimals) = JSNum.inf
    have hfold : ([t0, t1, t2].foldl
        (fun acc t => acc + (t.rawBalance / JSNum.pow10 t.decimals) * t.price)
        (JSNum.num 0)) = JSNum.num (q0 / 10 ^ t0.decimals * p0 +
          q1 / 10 ^ t1.decimals * p1 + q2 / 10 ^ t2.decimals * p2) := by
      simp only [List.foldl, hq0, hq1, hq2, hp0, hp1, hp2, JSNum.num_div_pow10,
        JSNum.mul_num_num, JSNum.add_num_num]
      norm_num
    rw [hfold, JSNum.num_div_pow10]
    norm_num
    exact JSNum.div_num_zero_pos _ hsum

/-- Witness for the amended **C3**: concrete zero-supply inputs produce
`Infinity` in `addLPToken`'s constituent balance, `addTraderJoeToken`'s
underlying balance, and `addBalancerLikeToken`'s 3-asset price. -/
theorem valuation_divzero_unguarded_witness :
    (addLPToken none "eth" "l" "none" "o" "0xp" (JSNum.num 1) "LP" 0
        (JSNum.num 4) (JSNum.num 6) (JSNum.num 0) "0xa" "0xb" "T0" 0 "T1" 0
        (JSNum.num 1) (JSNum.num 1)).token1.balance = JSNum.inf ∧
    (addTraderJoeToken none "avax" "l" "staked" "o" (JSNum.num 2) (JSNum.num 5)
        (JSNum.num 0) "xJOE" 0 "JOE" 0 (JSNum.num 1)).underlyingToken.balance =
      JSNum.inf ∧
    (∃ tok : TokenT,
      (addBalancerLikeToken none "eth" "l" "none" "o" "0xp" (JSNum.num 1) "BPT" 0
          (JSNum.num 0)
          [⟨"0xa", "A", 0, JSNum.num 1, JSNum.num 1⟩,
           ⟨"0xb", "B", 0, JSNum.num 1, JSNum.num 1⟩,
           ⟨"0xc", "C", 0, JSNum.num 1, JSNum.num 1⟩]).1 = .simple tok ∧
      tok.price = JSNum.inf) := by
  refine ⟨?_, ?_, ?_⟩
  · exact (valuation_divzero_unguarded.1 none "eth" "l" "none" "o" "0xp" "0xa" "0xb"
      1 4 6 "LP" 0 "T0" 0 "T1" 0 (JSNum.num 1) (JSNum.num 1)
      (by norm_num) (by norm_num) (by norm_num)).2
  · exact valuation_divzero_unguarded.2.1 none "avax" "l" "staked" "o" 2 5 "xJOE" 0
      "JOE" 0 (JSNum.num 1) (by norm_num) (by norm_num)
  · exact valuation_divzero_unguarded.2.2 none "eth" "l" "none" "o" "0xp"
      (JSNum.num 1) "BPT" 0
      ⟨"0xa", "A", 0, JSNum.num 1, JSNum.num 1⟩
      ⟨"0xb", "B", 0, JSNum.num 1, JSNum.num 1⟩
      ⟨"0xc", "C", 0, JSNum.num 1, JSNum.num 1⟩
      1 1 1 1 1 1 rfl rfl rfl rfl rfl rfl (by norm_num)

/-! ## Claim theorems: fallbacks, handlers and the dispatcher -/

/-- **C6** counterexample: a Balancer-like pool whose vault reports fewer
than two constituent tokens matches no decomposition rule; the claim says
the fallback emits a diagnostic, but `addBalancerLikeToken` returns the
`'???'` placeholder silently — zero diagnostics are emitted. -/
theorem balancer_fallback_silent_counterexample :
    addBalancerLikeToken none "eth" "loc" "none" "0xowner" "0xpool" (JSNum.num 1)
        "BPT" 18 (JSNum.num 5) [] =
      (.simple { type := "token", chain := "eth", location := "loc",
                 status := "none", owner := "0xowner", symbol := "???",
                 address := "0xpool", balance := JSNum.num 0,
                 price := JSNum.num 0, logo := defaultTokenLogo }, 0) ∧
    ¬ 1 ≤ (addBalancerLikeToken none "eth" "loc" "none" "0xowner" "0xpool"
        (JSNum.num 1) "BPT" 18 (JSNum.num 5) []).2 := by
  constructor
  · rfl
  · intro h
    simp [addBalancerLikeToken] at h

/-- **C6** (amended): for every pool address matching none of the known
decomposition rules for its chain, the composite-pricing functions return
the `'???'` placeholder Simple token with balance 0 and price 0 and never
throw; `addCurveToken` additionally emits exactly one diagnostic, while
`addBalancerLikeToken`'s fallback emits none. -/
theorem composite_fallback_placeholder :
    (∀ (identified : SimpleOrLP) (chain location status owner address : String)
       (ethUnderlyingCount : Nat),
       curveMatches chain address ethUnderlyingCount = false →
       addCurveToken identified chain location status owner address
           ethUnderlyingCount =
         (.simple (curvePlaceholder chain location owner address), 1)) ∧
    (∀ (data : Option ChainTokenData) (chain location status owner address : String)
       (rawBalance : JSNum) (qSymbol : String) (qDecimals : Nat)
       (lpSupplyRaw : JSNum) (poolTokens : List PoolTokenInfo),
       poolTokens.length < 2 →
       addBalancerLikeToken data chain location status owner address rawBalance
           qSymbol qDecimals lpSupplyRaw poolTokens =
         (.simple { type := "token", chain := chain, location := location,
                    status := "none", owner := owner, symbol := "???",
                    address := address, balance := JSNum.num 0,
                    price := JSNum.num 0, logo := defaultTokenLogo }, 0)) := by
  constructor
  · intro identified chain location status owner address ethUnderlyingCount h
    simp [addCurveToken, h]
  · intro data chain location status owner address rawBalance qSymbol qDecimals
      lpSupplyRaw poolTokens h
    match poolTokens, h with
    | [], _ => rfl
    | [t0], _ => rfl

/-- Witness for the amended **C6**: the QuickSwap registry address on the
`one` chain (no curve rules at all) and an empty Balancer constituent list
both yield the placeholder; curve logs once, balancer logs nothing. -/
theorem composite_fallback_placeholder_witness :
    addCurveToken (.simple (curvePlaceholder "x" "x" "x" "x")) "one" "loc" "none"
        "0xowner" "0xpool" 0 =
      (.simple (curvePlaceholder "one" "loc" "0xowner" "0xpool"), 1) ∧
    addBalancerLikeToken none "eth" "loc" "none" "0xowner" "0xpool" (JSNum.num 1)
        "BPT" 18 (JSNum.num 5) [] =
      (.simple { type := "token", chain := "eth", location := "loc",
                 status := "none", owner := "0xowner", symbol := "???",
                 address := "0xpool", balance := JSNum.num 0,
                 price := JSNum.num 0, logo := defaultTokenLogo }, 0) := by
  constructor
  · exact composite_fallback_placeholder.1 (.simple (curvePlaceholder "x" "x" "x" "x"))
      "one" "loc" "none" "0xowner" "0xpool" 0 (by decide)
  · exact composite_fallback_placeholder.2 none "eth" "loc" "none" "0xowner" "0xpool"
      (JSNum.num 1) "BPT" 18 (JSNum.num 5) [] (by decide)

/-- **C5**: a failure thrown partway through a handler's multi-step logic is
caught at the handler boundary, and the positions accumulated by the steps
completed before the failing step are still returned, with the exception
logged (one diagnostic) and never propagated: every failure position of
Iron's four-step `get`, and PoolTogether's single-step `get`. -/
theorem handler_preserves_accumulated {α : Type} (a b c d : List α)
    (r2 r3 r4 : Except Unit (List α)) :
    ironGet (Except.error ()) r2 r3 r4 = ([], 1) ∧
    ironGet (Except.ok a) (Except.error ()) r3 r4 = (a, 1) ∧
    ironGet (Except.ok a) (Except.ok b) (Except.error ()) r4 = (a ++ b, 1) ∧
    ironGet (Except.ok a) (Except.ok b) (Except.ok c) (Except.error ()) =
      (a ++ b ++ c, 1) ∧
    ironGet (Except.ok a) (Except.ok b) (Except.ok c) (Except.ok d) =
      (a ++ b ++ c ++ d, 0) ∧
    pooltogetherGet (Except.error () : Except Unit (List α)) = ([], 1) ∧
    pooltogetherGet (Except.ok a) = (a, 0) :=
  ⟨rfl, rfl, rfl, rfl, rfl, rfl, rfl⟩

/-- **C7**: for every chain and every project name not in that chain's known
project set, `getProjectBalance` logs one `Invalid Project Queried`
diagnostic and returns the empty array; it does not raise. -/
theorem getProjectBalance_unknown_empty {α : Type} (projects : String → List String)
    (dapps : String → String → String → List α) (chain wallet project : String)
    (h : (projects chain).contains project = false) :
    getProjectBalance projects dapps chain wallet project = ([], 1) := by
  unfold getProjectBalance
  rw [h]
  rfl

/-- Witness for **C7**: the project `aave` is not in the chain's known set
`[iron, pooltogether]`, so the dispatcher returns `([], 1)`. -/
theorem getProjectBalance_unknown_empty_witness :
    getProjectBalance (fun _ => ["iron", "pooltogether"])
      (fun _ _ _ => ([7] : List Nat)) "poly" "0xwallet" "aave" = ([], 1) :=
  getProjectBalance_unknown_empty (fun _ => ["iron", "pooltogether"])
    (fun _ _ _ => ([7] : List Nat)) "poly" "0xwallet" "aave" (by decide)

/-- **C8**: for every raw balance `b ≥ 0` (as a rational) the normalized
`balance` field produced by `addToken` is exactly `b / 10^d` for the
resolved decimals `d`, and is nonnegative; the same holds for
`addTrackedToken` with the catalog entry's decimals. -/
theorem addToken_balance_normalized (data : Option ChainTokenData)
    (chain location status owner address : String) (b : ℚ)
    (qSymbol : String) (qDecimals : Nat) (price : JSNum) (hb : 0 ≤ b) :
    (addToken data chain location status owner address (JSNum.num b) qSymbol
        qDecimals price).balance =
      JSNum.num (b / 10 ^ resolvedDecimals data address qDecimals) ∧
    0 ≤ b / 10 ^ resolvedDecimals data address qDecimals ∧
    ∀ token : TokenData,
      (addTrackedToken chain location status owner token (JSNum.num b)
          price).balance = JSNum.num (b / 10 ^ token.decimals) ∧
      0 ≤ b / 10 ^ token.decimals := by
  refine ⟨?_, by positivity, fun token => ⟨JSNum.num_div_pow10 _ _, by positivity⟩⟩
  by_cases h : jsToLower address = defaultAddress
  · simp only [addToken, resolvedDecimals, h, if_true, reduceIte]
    exact JSNum.num_div_pow10 _ _
  · cases htr : getTrackedTokenInfo data address with
    | some token =>
      simp only [addToken, resolvedDecimals, h, if_false, reduceIte, htr]
      exact JSNum.num_div_pow10 _ _
    | none =>
      simp only [addToken, resolvedDecimals, h, if_false, reduceIte, htr]
      exact JSNum.num_div_pow10 _ _

/-- Witness for **C8**: raw balance `1_000_000` of an untracked token with
queried decimals 6 gives a normalized balance of exactly 1. -/
theorem addToken_balance_normalized_witness :
    0 ≤ (1000000 : ℚ) ∧
    (addToken none "eth" "wallet" "none" "0xowner" "0x1" (JSNum.num 1000000)
        "TKN" 6 (JSNum.num 0)).balance = JSNum.num 1 := by
  refine ⟨by norm_num, ?_⟩
  rw [(addToken_balance_normalized none "eth" "wallet" "none" "0xowner" "0x1"
    1000000 "TKN" 6 (JSNum.num 0) (by norm_num)).1]
  have hd : resolvedDecimals none "0x1" 6 = 6 := by decide
  rw [hd]
  norm_num

/-- Repeating a `getTokenPriceSt` call from the cache it produced returns
the same price and leaves the cache unchanged. -/
theorem getTokenPriceSt_idem (oracle : String → String → ℚ) (c : Cache)
    (chain address : String) :
    getTokenPriceSt oracle (getTokenPriceSt oracle c chain address).2 chain address =
      ((getTokenPriceSt oracle c chain address).1,
       (getTokenPriceSt oracle c chain address).2) :=
  getTokenPriceSt_of_cached oracle _ chain address _ (cacheLookup_after oracle c chain address)

/-- **C9**: calling the classify-and-price entry points (`addToken`,
`addDebtToken`, `addXToken`, `addLPToken`) twice with identical arguments
against an unchanged on-chain state (the same query results) and an
unchanged external price source yields identical Token outputs — including
across the write-through price cache the first call may have populated. -/
theorem classify_and_price_repeat_invariant (oracle : String → String → ℚ)
    (data : Option ChainTokenData)
    (chain location status owner address address0 address1 underlyingAddress : String)
    (rawBalance reserves0 reserves1 lpSupplyRaw underlyingRawBalance : JSNum)
    (qSymbol qSymbol0 qSymbol1 qUnderlyingSymbol : String)
    (qDecimals qDecimals0 qDecimals1 qUnderlyingDecimals : Nat) (c : Cache) :
    (addTokenRun oracle data chain location status owner address rawBalance
        qSymbol qDecimals c).1 =
      (addTokenRun oracle data chain location status owner address rawBalance
        qSymbol qDecimals
        ((addTokenRun oracle data chain location status owner address rawBalance
          qSymbol qDecimals c).2)).1 ∧
    (addDebtTokenRun oracle data chain location owner address rawBalance
        qSymbol qDecimals c).1 =
      (addDebtTokenRun oracle data chain location owner address rawBalance
        qSymbol qDecimals
        ((addDebtTokenRun oracle data chain location owner address rawBalance
          qSymbol qDecimals c).2)).1 ∧
    (addXTokenRun oracle data chain location status owner address rawBalance
        qSymbol qDecimals underlyingAddress underlyingRawBalance
        qUnderlyingSymbol qUnderlyingDecimals c).1 =
      (addXTokenRun oracle data chain location status owner address rawBalance
        qSymbol qDecimals underlyingAddress underlyingRawBalance
        qUnderlyingSymbol qUnderlyingDecimals
        ((addXTokenRun oracle data chain location status owner address rawBalance
          qSymbol qDecimals underlyingAddress underlyingRawBalance
          qUnderlyingSymbol qUnderlyingDecimals c).2)).1 ∧
    (addLPTokenRun oracle data chain location status owner address rawBalance
        qSymbol qDecimals reserves0 reserves1 lpSupplyRaw address0 address1
        qSymbol0 qDecimals0 qSymbol1 qDecimals1 c).1 =
      (addLPTokenRun oracle data chain location status owner address rawBalance
        qSymbol qDecimals reserves0 reserves1 lpSupplyRaw address0 address1
        qSymbol0 qDecimals0 qSymbol1 qDecimals1
        ((addLPTokenRun oracle data chain location status owner address rawBalance
          qSymbol qDecimals reserves0 reserves1 lpSupplyRaw address0 address1
          qSymbol0 qDecimals0 qSymbol1 qDecimals1 c).2)).1 := by
  refine ⟨?_, ?_, ?_, ?_⟩
  · simp only [addTokenRun]
    rw [getTokenPriceSt_idem]
  · simp only [addDebtTokenRun]
    rw [getTokenPriceSt_idem]
  · simp only [addXTokenRun]
    rw [getTokenPriceSt_idem]
  · simp only [addLPTokenRun]
    have h1 : cacheLookup (getTokenPriceSt oracle c chain address0).2
        (chain, jsToLower address0) =
        some (getTokenPriceSt oracle c chain address0).1 :=
      cacheLookup_after oracle c chain address0
    have h2 : cacheLookup
        (getTokenPriceSt oracle (getTokenPriceSt oracle c chain address0).2
          chain address1).2 (chain, jsToLower address0) =
        some (getTokenPriceSt oracle c chain address0).1 :=
      cacheLookup_preserved oracle _ chain address1 _ _ h1
    rw [getTokenPriceSt_of_cached oracle _ chain address0 _ h2,
      getTokenPriceSt_idem oracle (getTokenPriceSt oracle c chain address0).2
        chain address1]

/-- **C10**: when the outer composite token's address is in the chain's
tracked-token catalog, `addXToken` takes the returned `underlyingToken`'s
symbol and logo, and the decimals used to normalize the underlying balance,
from the catalog entry of the *outer* address; only when the outer address
is untracked does it use the underlying token's own queried symbol/decimals
(and a logo looked up from that symbol). -/
theorem addXToken_underlying_from_outer_catalog :
    (∀ (data : Option ChainTokenData)
       (chain location status owner address underlyingAddress : String)
       (rawBalance underlyingRawBalance : JSNum) (qSymbol : String) (qDecimals : Nat)
       (qUnderlyingSymbol : String) (qUnderlyingDecimals : Nat)
       (underlyingPrice : JSNum) (token : TokenData),
       getTrackedTokenInfo data address = some token →
       (addXToken data chain location status owner address rawBalance qSymbol
           qDecimals underlyingAddress underlyingRawBalance qUnderlyingSymbol
           qUnderlyingDecimals underlyingPrice).underlyingToken.symbol =
         token.symbol ∧
       (addXToken data chain location status owner address rawBalance qSymbol
           qDecimals underlyingAddress underlyingRawBalance qUnderlyingSymbol
           qUnderlyingDecimals underlyingPrice).underlyingToken.logo = token.logo ∧
       (addXToken data chain location status owner address rawBalance qSymbol
           qDecimals underlyingAddress underlyingRawBalance qUnderlyingSymbol
           qUnderlyingDecimals underlyingPrice).underlyingToken.balance =
         underlyingRawBalance / JSNum.pow10 token.decimals) ∧
    (∀ (data : Option ChainTokenData)
       (chain location status owner address underlyingAddress : String)
       (rawBalance underlyingRawBalance : JSNum) (qSymbol : String) (qDecimals : Nat)
       (qUnderlyingSymbol : String) (qUnderlyingDecimals : Nat)
       (underlyingPrice : JSNum),
       getTrackedTokenInfo data address = none →
       (addXToken data chain location status owner address rawBalance qSymbol
           qDecimals underlyingAddress underlyingRawBalance qUnderlyingSymbol
           qUnderlyingDecimals underlyingPrice).underlyingToken.symbol =
         qUnderlyingSymbol ∧
       (addXToken data chain location status owner address rawBalance qSymbol
           qDecimals underlyingAddress underlyingRawBalance qUnderlyingSymbol
           qUnderlyingDecimals underlyingPrice).underlyingToken.logo =
         getTokenLogo data qUnderlyingSymbol ∧
       (addXToken data chain location status owner address rawBalance qSymbol
           qDecimals underlyingAddress underlyingRawBalance qUnderlyingSymbol
           qUnderlyingDecimals underlyingPrice).underlyingToken.balance =
         underlyingRawBalance / JSNum.pow10 qUnderlyingDecimals) := by
  constructor
  · intro data chain location status owner address underlyingAddress rawBalance
      underlyingRawBalance qSymbol qDecimals qUnderlyingSymbol qUnderlyingDecimals
      underlyingPrice token h
    refine ⟨?_, ?_, ?_⟩ <;> simp only [addXToken, h]
  · intro data chain location status owner address underlyingAddress rawBalance
      underlyingRawBalance qSymbol qDecimals qUnderlyingSymbol qUnderlyingDecimals
      underlyingPrice h
    refine ⟨?_, ?_, ?_⟩ <;> simp only [addXToken, h]

/-- Witness for **C10**: with the outer address `0xOut` tracked as
`(OUT, logO, decimals 8)`, the underlying token reports symbol `OUT`, logo
`logO`, and a balance normalized by `10^8` even though the underlying
address `0xund` is a different token; with no catalog, the queried
underlying symbol/decimals are used. -/
theorem addXToken_underlying_from_outer_catalog_witness :
    (addXToken (some ⟨[⟨"0xout", "OUT", "logO", 8⟩], []⟩) "avax" "loc" "staked"
        "0xowner" "0xOut" (JSNum.num 2) "xOUT" 18 "0xund" (JSNum.num 3) "UND" 6
        (JSNum.num 1)).underlyingToken.symbol = "OUT" ∧
    (addXToken (some ⟨[⟨"0xout", "OUT", "logO", 8⟩], []⟩) "avax" "loc" "staked"
        "0xowner" "0xOut" (JSNum.num 2) "xOUT" 18 "0xund" (JSNum.num 3) "UND" 6
        (JSNum.num 1)).underlyingToken.balance = JSNum.num 3 / JSNum.pow10 8 ∧
    (addXToken none "avax" "loc" "staked" "0xowner" "0xOut" (JSNum.num 2) "xOUT"
        18 "0xund" (JSNum.num 3) "UND" 6
        (JSNum.num 1)).underlyingToken.symbol = "UND" ∧
    (addXToken none "avax" "loc" "staked" "0xowner" "0xOut" (JSNum.num 2) "xOUT"
        18 "0xund" (JSNum.num 3) "UND" 6
        (JSNum.num 1)).underlyingToken.balance = JSNum.num 3 / JSNum.pow10 6 := by
  have h1 := addXToken_underlying_from_outer_catalog.1
    (some ⟨[⟨"0xout", "OUT", "logO", 8⟩], []⟩) "avax" "loc" "staked" "0xowner"
    "0xOut" "0xund" (JSNum.num 2) (JSNum.num 3) "xOUT" 18 "UND" 6 (JSNum.num 1)
    ⟨"0xout", "OUT", "logO", 8⟩ (by decide)
  have h2 := addXToken_underlying_from_outer_catalog.2
    none "avax" "loc" "staked" "0xowner" "0xOut" "0xund" (JSNum.num 2)
    (JSNum.num 3) "xOUT" 18 "UND" 6 (JSNum.num 1) rfl
  exact ⟨h1.1, h1.2.2, h2.1, h2.2.2⟩

end Weaverfi
